import Mathlib

/-!
# The `pwx` volume plugin (`pkg/volume/pwx/plugin.go`)

A shallow embedding of the plugin in Lean.

* A Go pointer or interface value that may be `nil` is an `Option`.
* A Go function whose body can dereference `nil` returns a `Run`: either the
  call returned a value, or the goroutine panicked.
* A Go `error` result is an `Option GoError` next to the other results, as in
  the source (`none` is the `nil` error).
* A method that writes through a pointer takes the pointed-to value and
  returns the new one.
* Implementations of the interfaces `pwxManager` and `mount.Interface` are
  type parameters `M` and `Mt`.
-/

namespace Pwx

/-! ## Running Go code -/

/-- Outcome of a call: it returned, or it panicked on a nil dereference. -/
inductive Run (α : Type) where
  | returned (a : α)
  | panicked
  deriving DecidableEq, Repr

/-- Sequencing: a panic in the first computation aborts the rest. -/
def Run.bind {α β : Type} (x : Run α) (f : α → Run β) : Run β :=
  match x with
  | .returned a => f a
  | .panicked => .panicked

instance : Monad Run where
  pure := Run.returned
  bind := Run.bind

/-- Access through a pointer (or a method call on an interface value):
panics when the pointer is nil. -/
def deref {α : Type} (p : Option α) : Run α :=
  match p with
  | some a => .returned a
  | none => .panicked

/-- A Go `error` value. -/
structure GoError where
  msg : String
  deriving DecidableEq, Repr

/-! ## Types of the packages `api`, `resource`, `types`, `volume`, `mount`

Only the fields that `plugin.go` reads or writes are kept. -/

/-- The type `types.UID`, a string. -/
abbrev UID := String

/-- Modelled from the spec: `resource.Quantity` is declared in package
`resource`, outside the plugin directory. The spec measures capacities in GiB
("capacityGB", "actualSizeGB", "reported capacity is ≥ 5 GiB"); a quantity is
modelled by the number of bytes it stands for. -/
structure Quantity where
  bytes : Int
  deriving DecidableEq, Repr

/-- Comparison of quantities (`Quantity.Cmp` in package `resource`). -/
instance : LE Quantity := ⟨fun a b => a.bytes ≤ b.bytes⟩

instance (a b : Quantity) : Decidable (a ≤ b) := by
  show Decidable (a.bytes ≤ b.bytes)
  infer_instance

/-- Modelled from the spec: the value of
`resource.MustParse(fmt.Sprintf("%dGi", n))`, both functions being outside
the plugin directory: the quantity of `n` GiB, that is `n * 2^30` bytes. -/
def MustParseGi (n : Int) : Quantity := ⟨n * 2 ^ 30⟩

/-- The Go map type `api.ResourceList`, from resource name to quantity. -/
abbrev ResourceList := List (String × Quantity)

/-- The constant `api.ResourceStorage`. -/
def ResourceStorage : String := "storage"

/-- The struct `api.PwxVolumeSource`. -/
structure PwxVolumeSource where
  VolumeID : String
  FSType : String
  ReadOnly : Bool
  deriving DecidableEq, Repr

/-- The struct `api.Volume`; `PwxDisk` is the promoted field of the embedded
`VolumeSource`. -/
structure Volume where
  Name : String
  PwxDisk : Option PwxVolumeSource
  deriving DecidableEq, Repr

/-- The struct `api.ObjectMeta`. -/
structure ObjectMeta where
  Name : String
  GenerateName : String
  Labels : List (String × String)
  Annotations : List (String × String)
  deriving DecidableEq, Repr

/-- The struct `api.PersistentVolumeSpec`; `PwxDisk` is the promoted field of
the embedded `PersistentVolumeSource`. -/
structure PersistentVolumeSpec where
  Capacity : ResourceList
  PwxDisk : Option PwxVolumeSource
  deriving DecidableEq, Repr

/-- The struct `api.PersistentVolume`. -/
structure PersistentVolume where
  ObjectMeta : ObjectMeta
  Spec : PersistentVolumeSpec
  deriving DecidableEq, Repr

/-- The struct `volume.Spec`. -/
structure Spec where
  Volume : Option Volume
  PersistentVolume : Option PersistentVolume
  ReadOnly : Bool
  deriving DecidableEq, Repr

/-- The struct `volume.VolumeOptions`; the plugin reads `Capacity` only. -/
structure VolumeOptions where
  Capacity : Quantity
  deriving DecidableEq, Repr

/-- The struct `volume.Attributes`. -/
structure Attributes where
  ReadOnly : Bool
  Managed : Bool
  SupportsSELinux : Bool
  deriving DecidableEq, Repr

/-- Functions that `plugin.go` calls and that are defined in other packages:
they are parameters of the development. -/
structure Imports where
  /-- The method `volume.Spec.Name`. -/
  SpecName : Spec → String
  /-- The function `strings.EscapeQualifiedNameForDisk`. -/
  EscapeQualifiedNameForDisk : String → String

/-- The interface `volume.VolumeHost`, with the two methods the plugin calls. -/
structure VolumeHost (Mt : Type) where
  GetPodVolumeDir : UID → String → String → String
  GetMounter : Option Mt

/-- Result of `exec.New()`: the executor that runs operating-system commands. -/
inductive Executor where
  | osExec
  deriving DecidableEq, Repr

/-- The struct `mount.SafeFormatAndMount`. -/
structure SafeFormatAndMount (Mt : Type) where
  Interface : Option Mt
  Runner : Executor

/-! ## The plugin's own types -/

/-- The constant `pwxPluginName`. -/
def pwxPluginName : String := "kubernetes.io/pwx"

/-- The struct `pwxPlugin`. -/
structure pwxPlugin (Mt : Type) where
  host : Option (VolumeHost Mt)

/-- The struct `pwxDisk`. The embedded `volume.MetricsNil` has no fields. -/
structure pwxDisk (M Mt : Type) where
  volName : String
  podUID : UID
  VolumeID : String
  partition : String
  manager : Option M
  mounter : Option Mt
  plugin : Option (pwxPlugin Mt)

/-- The struct `pwxBuilder`; it embeds a `*pwxDisk`. -/
structure pwxBuilder (M Mt : Type) where
  pwxDisk : Option (pwxDisk M Mt)
  fsType : String
  readOnly : Bool
  diskMounter : Option (SafeFormatAndMount Mt)

/-- The struct `pwxDiskCleaner`; it embeds a `*pwxDisk`. -/
structure pwxDiskCleaner (M Mt : Type) where
  pwxDisk : Option (pwxDisk M Mt)

/-- The struct `pwxDiskProvisioner`; it embeds a `*pwxDisk`. -/
structure pwxDiskProvisioner (M Mt : Type) where
  pwxDisk : Option (pwxDisk M Mt)
  options : VolumeOptions

/-- The interface `pwxManager`: the method `CreateVolume` of an implementation
of type `M`, returning `(volumeID, volumeSizeGB, err)`. -/
structure pwxManager (M Mt : Type) where
  CreateVolume : M → pwxDiskProvisioner M Mt → String × Int × Option GoError

/-! ## The plugin's functions -/

section Functions

variable {M Mt : Type}

/-- The method `pwxPlugin.Init`: the new plugin value and the error. -/
def Init (_p : pwxPlugin Mt) (host : Option (VolumeHost Mt)) : pwxPlugin Mt × Option GoError :=
  ({ host := host }, none)

/-- The method `pwxPlugin.Name`. -/
def Name (_p : pwxPlugin Mt) : String := pwxPluginName

/-- The method `pwxPlugin.CanSupport`, with Go's short-circuit `&&` and `||`:
a field is read through a pointer only after the pointer was found non-nil. -/
def CanSupport (spec : Spec) : Run Bool := do
  let viaPersistent ←
    (if spec.PersistentVolume.isSome then do
      let pv ← deref spec.PersistentVolume
      pure pv.Spec.PwxDisk.isSome
    else pure false)
  if viaPersistent then pure true
  else if spec.Volume.isSome then do
    let v ← deref spec.Volume
    pure v.PwxDisk.isSome
  else pure false

/-- The method `pwxPlugin.newBuilderInternal`. -/
def newBuilderInternal (L : Imports) (p : pwxPlugin Mt) (spec : Spec) (podUID : UID)
    (manager : Option M) (mounter : Option Mt) :
    Run (Option (pwxBuilder M Mt) × Option GoError) := do
  let inline ←
    (if spec.Volume.isSome then do
      let v ← deref spec.Volume
      pure v.PwxDisk.isSome
    else pure false)
  let (px, readOnly) ←
    (if inline then do
      let v ← deref spec.Volume
      let src ← deref v.PwxDisk
      pure (v.PwxDisk, src.ReadOnly)
    else do
      let pv ← deref spec.PersistentVolume
      pure (pv.Spec.PwxDisk, spec.ReadOnly))
  let volid := (← deref px).VolumeID
  let fsType := (← deref px).FSType
  pure (some {
    pwxDisk := some {
      volName := L.SpecName spec
      podUID := podUID
      VolumeID := volid
      partition := ""
      manager := manager
      mounter := mounter
      plugin := some p }
    fsType := fsType
    readOnly := readOnly
    diskMounter := some { Interface := mounter, Runner := Executor.osExec } }, none)

/-- The method `pwxPlugin.NewBuilder`; `util` is the value `&PWXDiskUtil{}`. -/
def NewBuilder (L : Imports) (util : M) (p : pwxPlugin Mt) (spec : Spec)
    (pod : Option UID) : Run (Option (pwxBuilder M Mt) × Option GoError) := do
  let podUID ← deref pod
  let host ← deref p.host
  newBuilderInternal L p spec podUID (some util) host.GetMounter

/-- The method `pwxPlugin.newCleanerInternal`. -/
def newCleanerInternal (p : pwxPlugin Mt) (volName : String) (podUID : UID)
    (manager : Option M) (mounter : Option Mt) :
    Option (pwxDiskCleaner M Mt) × Option GoError :=
  (some { pwxDisk := some {
    volName := volName
    podUID := podUID
    VolumeID := ""
    partition := ""
    manager := manager
    mounter := mounter
    plugin := some p } }, none)

/-- The method `pwxPlugin.NewCleaner`; `util` is the value `&PWXDiskUtil{}`. -/
def NewCleaner (util : M) (p : pwxPlugin Mt) (volName : String) (podUID : UID) :
    Run (Option (pwxDiskCleaner M Mt) × Option GoError) := do
  let host ← deref p.host
  pure (newCleanerInternal p volName podUID (some util) host.GetMounter)

/-- The method `pwxDisk.GetPath`, on a receiver that may be nil. -/
def GetPath (L : Imports) (pd : Option (pwxDisk M Mt)) : Run String := do
  let name := pwxPluginName
  let d ← deref pd
  let plugin ← deref d.plugin
  let host ← deref plugin.host
  pure (host.GetPodVolumeDir d.podUID (L.EscapeQualifiedNameForDisk name) d.volName)

/-- The method `pwxDiskCleaner.TearDownAt`: the cleaner after the call and the
error. -/
def TearDownAt (c : pwxDiskCleaner M Mt) (_dir : String) :
    pwxDiskCleaner M Mt × Option GoError :=
  (c, none)

/-- The method `pwxDiskCleaner.TearDown`. -/
def TearDown (L : Imports) (c : pwxDiskCleaner M Mt) :
    Run (pwxDiskCleaner M Mt × Option GoError) := do
  let dir ← GetPath L c.pwxDisk
  pure (TearDownAt c dir)

/-- The method `pwxPlugin.newProvisionerInternal`. -/
def newProvisionerInternal (p : pwxPlugin Mt) (options : VolumeOptions)
    (manager : Option M) : Option (pwxDiskProvisioner M Mt) × Option GoError :=
  (some {
    pwxDisk := some {
      volName := ""
      podUID := ""
      VolumeID := ""
      partition := ""
      manager := manager
      mounter := none
      plugin := some p }
    options := options }, none)

/-- The method `pwxPlugin.NewProvisioner`; `util` is the value
`&PWXDiskUtil{}`. -/
def NewProvisioner (util : M) (p : pwxPlugin Mt) (options : VolumeOptions) :
    Option (pwxDiskProvisioner M Mt) × Option GoError :=
  newProvisionerInternal p options (some util)

/-- The method `pwxBuilder.GetAttributes`. -/
def GetAttributes (b : pwxBuilder M Mt) : Attributes :=
  { ReadOnly := b.readOnly, Managed := false, SupportsSELinux := false }

/-- The method `pwxBuilder.SetUpAt`: the builder after the call and the error.
The two `fmt.Sprintf` results are discarded by the source. -/
def SetUpAt (b : pwxBuilder M Mt) (_dir : String) (_fsGroup : Option Int) :
    pwxBuilder M Mt × Option GoError :=
  (b, none)

/-- The method `pwxBuilder.SetUp`. -/
def SetUp (L : Imports) (b : pwxBuilder M Mt) (fsGroup : Option Int) :
    Run (pwxBuilder M Mt × Option GoError) := do
  let dir ← GetPath L b.pwxDisk
  pure (SetUpAt b dir fsGroup)

/-- The method `pwxDiskProvisioner.Provision`: the persistent volume after the
call and the error. -/
def Provision (I : pwxManager M Mt) (c : pwxDiskProvisioner M Mt)
    (pv : PersistentVolume) : Run (PersistentVolume × Option GoError) := do
  let d ← deref c.pwxDisk
  let m ← deref d.manager
  match I.CreateVolume m c with
  | (_, _, some err) => pure (pv, some err)
  | (volumeID, sizeGB, none) =>
    let src ← deref pv.Spec.PwxDisk
    let pv1 : PersistentVolume :=
      { pv with Spec := { pv.Spec with PwxDisk := some { src with VolumeID := volumeID } } }
    let pv2 : PersistentVolume :=
      { pv1 with Spec := { pv1.Spec with
          Capacity := [(ResourceStorage, MustParseGi sizeGB)] } }
    pure (pv2, none)

/-- The method `pwxDiskProvisioner.NewPersistentVolumeTemplate`. -/
def NewPersistentVolumeTemplate (c : pwxDiskProvisioner M Mt) :
    Option PersistentVolume × Option GoError :=
  (some {
    ObjectMeta := {
      Name := ""
      GenerateName := "pwx-"
      Labels := []
      Annotations := [("kubernetes.io/createdby", "pwx")] }
    Spec := {
      Capacity := [(ResourceStorage, c.options.Capacity)]
      PwxDisk := some {
        VolumeID := "00000000-0000-0000000-0000-000000"
        FSType := "ext4"
        ReadOnly := false } } }, none)

/-- The storage entry of a persistent volume's capacity map. -/
def storageCapacity (pv : PersistentVolume) : Option Quantity :=
  pv.Spec.Capacity.lookup ResourceStorage

end Functions

/-! ## Concrete values used to instantiate the theorems -/

/-- An instance of the imported functions: a spec is named after its inline
volume, else after its persistent volume; escaping turns `/` into `~`. -/
def sampleImports : Imports where
  SpecName := fun spec =>
    match spec.Volume, spec.PersistentVolume with
    | some v, _ => v.Name
    | none, some pv => pv.ObjectMeta.Name
    | none, none => ""
  EscapeQualifiedNameForDisk := fun s =>
    ⟨s.data.map fun ch => if ch = '/' then '~' else ch⟩

/-- A host that lays pod volumes out under `/pods`. -/
def sampleHost : VolumeHost Unit where
  GetPodVolumeDir := fun uid plug vol => "/pods/" ++ uid ++ "/volumes/" ++ plug ++ "/" ++ vol
  GetMounter := some ()

/-- A plugin initialised with `sampleHost`. -/
def samplePlugin : pwxPlugin Unit := { host := some sampleHost }

/-- The plugin value `pwxPlugin{}` of `TestNewCleaner`: no host. -/
def barePlugin : pwxPlugin Unit := { host := none }

/-- An inline spec named `data` carrying a read-only `PwxDisk` source. -/
def inlineSpec : Spec where
  Volume := some { Name := "data", PwxDisk := some { VolumeID := "v1", FSType := "ext4", ReadOnly := true } }
  PersistentVolume := none
  ReadOnly := false

/-- A read-only spec backed by a persistent volume named `claim` that carries
a `PwxDisk` source. -/
def persistentSpec : Spec where
  Volume := none
  PersistentVolume := some {
    ObjectMeta := { Name := "claim", GenerateName := "", Labels := [], Annotations := [] }
    Spec := {
      Capacity := []
      PwxDisk := some { VolumeID := "v2", FSType := "xfs", ReadOnly := false } } }
  ReadOnly := true

/-- A spec with neither an inline volume nor a persistent volume. -/
def emptySpec : Spec where
  Volume := none
  PersistentVolume := none
  ReadOnly := false

/-- A manager that creates a volume of 8 GiB named `vol-8`. -/
def goodManager : pwxManager Unit Unit where
  CreateVolume := fun _ _ => ("vol-8", 8, none)

/-- A manager whose `CreateVolume` returns without error an empty volume
identifier and a size of 0 GiB. -/
def shortManager : pwxManager Unit Unit where
  CreateVolume := fun _ _ => ("", 0, none)

/-- A manager whose `CreateVolume` fails. -/
def failingManager : pwxManager Unit Unit where
  CreateVolume := fun _ _ => ("", 0, some ⟨"backend unavailable"⟩)

/-- The disk of a provisioner made by `newProvisionerInternal` on
`samplePlugin`. -/
def sampleDisk : pwxDisk Unit Unit where
  volName := ""
  podUID := ""
  VolumeID := ""
  partition := ""
  manager := some ()
  mounter := none
  plugin := some samplePlugin

/-- The provisioner made by `newProvisionerInternal` on `samplePlugin` for a
request of 5 GiB. -/
def fiveGiProvisioner : pwxDiskProvisioner Unit Unit where
  pwxDisk := some sampleDisk
  options := { Capacity := MustParseGi 5 }

/-- The template that `NewPersistentVolumeTemplate` makes for
`fiveGiProvisioner`. -/
def fiveGiTemplate : PersistentVolume where
  ObjectMeta := {
    Name := ""
    GenerateName := "pwx-"
    Labels := []
    Annotations := [("kubernetes.io/createdby", "pwx")] }
  Spec := {
    Capacity := [(ResourceStorage, MustParseGi 5)]
    PwxDisk := some {
      VolumeID := "00000000-0000-0000000-0000-000000"
      FSType := "ext4"
      ReadOnly := false } }

/-! ## Capability detection -/

/-- C1: `CanSupport` returns, and it returns true exactly when the persistent
volume is present and carries a `PwxDisk` source or the inline volume is
present and carries one; it returns false for a spec with neither volume, and
for an inline volume with an empty volume source. -/
theorem CanSupport_iff :
    (∀ spec : Spec, ∃ r : Bool, CanSupport spec = Run.returned r ∧
      (r = true ↔
        ((∃ pv src, spec.PersistentVolume = some pv ∧ pv.Spec.PwxDisk = some src) ∨
         (∃ v src, spec.Volume = some v ∧ v.PwxDisk = some src)))) ∧
    (∀ ro : Bool,
      CanSupport { Volume := none, PersistentVolume := none, ReadOnly := ro }
        = Run.returned false) ∧
    (∀ (name : String) (ro : Bool),
      CanSupport { Volume := some { Name := name, PwxDisk := none },
                   PersistentVolume := none, ReadOnly := ro }
        = Run.returned false) := by
  refine ⟨?_, ?_, ?_⟩
  · rintro ⟨v, pv, ro⟩
    rcases pv with _ | ⟨meta, cap, _ | src⟩ <;> rcases v with _ | ⟨nm, _ | vsrc⟩ <;>
      simp [CanSupport, deref, bind, Run.bind, pure]
  · intro ro
    rfl
  · intro name ro
    rfl

/-! ## Resolving a spec into a builder -/

section Theorems

variable {M Mt : Type}

/-- The disk of the builder that `newBuilderInternal` makes for a supported
spec: it records the pod, the spec name and the plugin. -/
theorem newBuilderInternal_disk (L : Imports) (p : pwxPlugin Mt) (spec : Spec)
    (podUID : UID) (manager : Option M) (mounter : Option Mt)
    (hs : CanSupport spec = Run.returned true) :
    ∃ (b : pwxBuilder M Mt) (d : pwxDisk M Mt),
      newBuilderInternal L p spec podUID manager mounter = Run.returned (some b, none) ∧
      b.pwxDisk = some d ∧ d.podUID = podUID ∧ d.volName = L.SpecName spec ∧
      d.plugin = some p := by
  obtain ⟨v, pv, ro⟩ := spec
  rcases v with _ | ⟨nm, _ | vsrc⟩ <;> rcases pv with _ | ⟨meta, cap, _ | src⟩ <;>
    simp [CanSupport, deref, bind, Run.bind, pure] at hs <;>
    simp [newBuilderInternal, deref, bind, Run.bind, pure]

/-- C2: for a spec that `CanSupport` accepts, `newBuilderInternal` returns a
builder and no error; the builder carries the given pod UID and the spec name;
its `VolumeID` and `fsType` are those of the inline source when the inline
volume carries one, otherwise those of the persistent volume's source; its
`GetAttributes().ReadOnly` is the source's `ReadOnly` in the inline case and
the spec's `ReadOnly` flag in the persistent-volume case, hence false when
both are unset. -/
theorem newBuilderInternal_resolves (L : Imports) (p : pwxPlugin Mt) (spec : Spec)
    (podUID : UID) (manager : Option M) (mounter : Option Mt)
    (hs : CanSupport spec = Run.returned true) :
    ∃ (b : pwxBuilder M Mt) (d : pwxDisk M Mt),
      newBuilderInternal L p spec podUID manager mounter = Run.returned (some b, none) ∧
      b.pwxDisk = some d ∧ d.podUID = podUID ∧ d.volName = L.SpecName spec ∧
      (∀ v src, spec.Volume = some v → v.PwxDisk = some src →
        d.VolumeID = src.VolumeID ∧ b.fsType = src.FSType ∧
        (GetAttributes b).ReadOnly = src.ReadOnly) ∧
      (∀ pv src, (¬ ∃ v vsrc, spec.Volume = some v ∧ v.PwxDisk = some vsrc) →
        spec.PersistentVolume = some pv → pv.Spec.PwxDisk = some src →
        d.VolumeID = src.VolumeID ∧ b.fsType = src.FSType ∧
        (GetAttributes b).ReadOnly = spec.ReadOnly) ∧
      (spec.ReadOnly = false →
        (∀ v src, spec.Volume = some v → v.PwxDisk = some src → src.ReadOnly = false) →
        (GetAttributes b).ReadOnly = false) := by
  obtain ⟨v, pv, ro⟩ := spec
  rcases v with _ | ⟨nm, _ | vsrc⟩ <;> rcases pv with _ | ⟨meta, cap, _ | src⟩ <;>
    simp [CanSupport, deref, bind, Run.bind, pure] at hs <;>
    simp [newBuilderInternal, deref, bind, Run.bind, pure, GetAttributes] <;>
    aesop

/-- A supported inline spec and a supported persistent-volume spec both
resolve to a builder for the given pod. -/
theorem newBuilderInternal_resolves_witness :
    (CanSupport inlineSpec = Run.returned true ∧
      ∃ (b : pwxBuilder Unit Unit) (d : pwxDisk Unit Unit),
        newBuilderInternal sampleImports samplePlugin inlineSpec "p1" (some ()) (some ())
          = Run.returned (some b, none) ∧
        b.pwxDisk = some d ∧ d.podUID = "p1" ∧ d.volName = "data" ∧
        d.VolumeID = "v1" ∧ b.fsType = "ext4" ∧ (GetAttributes b).ReadOnly = true) ∧
    (CanSupport persistentSpec = Run.returned true ∧
      ∃ (b : pwxBuilder Unit Unit) (d : pwxDisk Unit Unit),
        newBuilderInternal sampleImports samplePlugin persistentSpec "p2" (some ()) (some ())
          = Run.returned (some b, none) ∧
        b.pwxDisk = some d ∧ d.podUID = "p2" ∧ d.volName = "claim" ∧
        d.VolumeID = "v2" ∧ b.fsType = "xfs" ∧ (GetAttributes b).ReadOnly = true) :=
  ⟨⟨rfl, by
    obtain ⟨b, d, h1, h2, h3, h4, h5, _⟩ :=
      newBuilderInternal_resolves sampleImports samplePlugin inlineSpec "p1" (some ()) (some ()) rfl
    obtain ⟨h6, h7, h8⟩ := h5 _ _ rfl rfl
    exact ⟨b, d, h1, h2, h3, h4, h6, h7, h8⟩⟩,
   ⟨rfl, by
    obtain ⟨b, d, h1, h2, h3, h4, _, h5, _⟩ :=
      newBuilderInternal_resolves sampleImports samplePlugin persistentSpec "p2" (some ())
        (some ()) rfl
    obtain ⟨h6, h7, h8⟩ := h5 _ _ (fun ⟨_, _, hv, _⟩ => Option.noConfusion hv) rfl rfl
    exact ⟨b, d, h1, h2, h3, h4, h6, h7, h8⟩⟩⟩

/-- C3, as the claim states it, fails: on the spec with neither volume, which
`CanSupport` rejects, `newBuilderInternal` returns no error value. -/
theorem newBuilderInternal_unsupported_counterexample :
    CanSupport emptySpec = Run.returned false ∧
    ¬ ∃ e : GoError,
      newBuilderInternal sampleImports samplePlugin emptySpec "p1" (some ()) (some ())
        = Run.returned ((none : Option (pwxBuilder Unit Unit)), some e) :=
  ⟨rfl, fun ⟨_, h⟩ => Run.noConfusion h⟩

/-- C3, amended: `newBuilderInternal` has no error path. Whenever it returns,
it returns a builder and the nil error; on a spec that `CanSupport` rejects it
does not return at all (it dereferences a nil pointer), and neither does
`NewBuilder`. -/
theorem newBuilderInternal_unsupported (L : Imports) (util : M) (p : pwxPlugin Mt)
    (spec : Spec) (podUID : UID) (pod : Option UID) (manager : Option M)
    (mounter : Option Mt) :
    (∀ r, newBuilderInternal L p spec podUID manager mounter = Run.returned r →
      r.1.isSome = true ∧ r.2 = none) ∧
    (CanSupport spec = Run.returned false →
      newBuilderInternal L p spec podUID manager mounter = Run.panicked ∧
      NewBuilder L util p spec pod = Run.panicked) := by
  obtain ⟨v, pv, ro⟩ := spec
  obtain ⟨host⟩ := p
  constructor
  · rcases v with _ | ⟨nm, _ | vsrc⟩ <;> rcases pv with _ | ⟨meta, cap, _ | src⟩ <;>
      simp [newBuilderInternal, deref, bind, Run.bind, pure]
  · intro hs
    rcases v with _ | ⟨nm, _ | vsrc⟩ <;> rcases pv with _ | ⟨meta, cap, _ | src⟩ <;>
      simp [CanSupport, deref, bind, Run.bind, pure] at hs <;>
      rcases pod with _ | uid <;> rcases host with _ | h <;>
      simp [NewBuilder, newBuilderInternal, deref, bind, Run.bind, pure]

/-- The spec with neither volume is rejected and makes both constructors
panic; on the supported inline spec the constructor returns a builder and the
nil error. -/
theorem newBuilderInternal_unsupported_witness :
    (CanSupport emptySpec = Run.returned false ∧
      newBuilderInternal sampleImports samplePlugin emptySpec "p1" (some ()) (some ())
        = (Run.panicked : Run (Option (pwxBuilder Unit Unit) × Option GoError)) ∧
      NewBuilder sampleImports () samplePlugin emptySpec (some "p1")
        = (Run.panicked : Run (Option (pwxBuilder Unit Unit) × Option GoError))) ∧
    (∃ r : Option (pwxBuilder Unit Unit) × Option GoError,
      newBuilderInternal sampleImports samplePlugin inlineSpec "p1" (some ()) (some ())
        = Run.returned r ∧ r.1.isSome = true ∧ r.2 = none) :=
  ⟨⟨rfl, (newBuilderInternal_unsupported sampleImports () samplePlugin emptySpec "p1"
      (some "p1") (some ()) (some ())).2 rfl⟩,
   ⟨_, rfl, (newBuilderInternal_unsupported sampleImports () samplePlugin inlineSpec "p1"
      (some "p1") (some ()) (some ())).1 _ rfl⟩⟩

/-! ## Provisioning -/

/-- The value that `Provision` returns when `CreateVolume` succeeds and the
volume has a `PwxDisk` source. -/
theorem Provision_success (I : pwxManager M Mt) (c : pwxDiskProvisioner M Mt)
    (d : pwxDisk M Mt) (m : M) (pv : PersistentVolume) (src : PwxVolumeSource)
    (volumeID : String) (sizeGB : Int)
    (hd : c.pwxDisk = some d) (hm : d.manager = some m)
    (hpv : pv.Spec.PwxDisk = some src)
    (hc : I.CreateVolume m c = (volumeID, sizeGB, none)) :
    Provision I c pv = Run.returned
      ({ ObjectMeta := pv.ObjectMeta,
         Spec := { Capacity := [(ResourceStorage, MustParseGi sizeGB)],
                   PwxDisk := some { VolumeID := volumeID, FSType := src.FSType,
                                     ReadOnly := src.ReadOnly } } }, none) := by
  simp only [Provision, hd, hm, hc, hpv, deref, bind, Run.bind, pure]

/-- C4: when the manager's `CreateVolume` succeeds with `(volumeID, sizeGB)`,
`Provision` on the volume made by `NewPersistentVolumeTemplate` returns no
error; afterwards the `PwxDisk` source has the returned `volumeID`, filesystem
type `ext4` and `ReadOnly` false, and the storage capacity is `sizeGB` GiB.
Before `Provision` the template's storage capacity is `options.Capacity`. -/
theorem Provision_template (I : pwxManager M Mt) (c : pwxDiskProvisioner M Mt)
    (d : pwxDisk M Mt) (m : M) (volumeID : String) (sizeGB : Int)
    (hd : c.pwxDisk = some d) (hm : d.manager = some m)
    (hc : I.CreateVolume m c = (volumeID, sizeGB, none)) :
    ∃ tpl pv2 : PersistentVolume,
      NewPersistentVolumeTemplate c = (some tpl, none) ∧
      storageCapacity tpl = some c.options.Capacity ∧
      Provision I c tpl = Run.returned (pv2, none) ∧
      pv2.Spec.PwxDisk = some { VolumeID := volumeID, FSType := "ext4", ReadOnly := false } ∧
      storageCapacity pv2 = some (MustParseGi sizeGB) ∧
      pv2.ObjectMeta = tpl.ObjectMeta := by
  refine ⟨_, _, rfl, ?_, Provision_success I c d m _ _ volumeID sizeGB hd hm rfl hc,
    rfl, ?_, rfl⟩
  · simp [storageCapacity, List.lookup]
  · simp [storageCapacity, List.lookup]

/-- A request of 5 GiB served by a manager that creates 8 GiB. -/
theorem Provision_template_witness :
    fiveGiProvisioner.pwxDisk = some sampleDisk ∧ sampleDisk.manager = some () ∧
    goodManager.CreateVolume () fiveGiProvisioner = ("vol-8", 8, none) ∧
    ∃ tpl pv2 : PersistentVolume,
      NewPersistentVolumeTemplate fiveGiProvisioner = (some tpl, none) ∧
      storageCapacity tpl = some (MustParseGi 5) ∧
      Provision goodManager fiveGiProvisioner tpl = Run.returned (pv2, none) ∧
      pv2.Spec.PwxDisk = some { VolumeID := "vol-8", FSType := "ext4", ReadOnly := false } ∧
      storageCapacity pv2 = some (MustParseGi 8) :=
  ⟨rfl, rfl, rfl, by
    obtain ⟨tpl, pv2, h1, h2, h3, h4, h5, _⟩ :=
      Provision_template goodManager fiveGiProvisioner sampleDisk () "vol-8" 8 rfl rfl rfl
    exact ⟨tpl, pv2, h1, h2, h3, h4, h5⟩⟩

/-- C5, as the claim states it, fails: for a request of 5 GiB and a manager
whose `CreateVolume` succeeds with an empty identifier and 0 GiB, `Provision`
succeeds and leaves a capacity of 0 GiB, below 5 GiB, and an empty
`VolumeID`. -/
theorem Provision_capacity_counterexample :
    fiveGiProvisioner.options.Capacity = MustParseGi 5 ∧
    NewPersistentVolumeTemplate fiveGiProvisioner = (some fiveGiTemplate, none) ∧
    ∃ pv2 : PersistentVolume,
      Provision shortManager fiveGiProvisioner fiveGiTemplate = Run.returned (pv2, none) ∧
      storageCapacity pv2 = some (MustParseGi 0) ∧
      ¬ (MustParseGi 5 ≤ MustParseGi 0) ∧
      pv2.Spec.PwxDisk = some { VolumeID := "", FSType := "ext4", ReadOnly := false } := by
  refine ⟨rfl, rfl, _, rfl, ?_, ?_, rfl⟩
  · simp [storageCapacity, List.lookup]
  · show ¬ ((5 : Int) * 2 ^ 30 ≤ 0 * 2 ^ 30)
    norm_num

/-- C5, amended: a successful `Provision` of a request for `N` GiB reports
exactly the size and the identifier that the manager's `CreateVolume`
returned: the capacity map becomes the single entry storage = `sizeGB` GiB,
the `PwxDisk` source keeps its filesystem type and `ReadOnly` flag and gets
the returned `volumeID`, and the object metadata is untouched. So the reported
storage capacity is at least the requested one exactly when the returned
`sizeGB` is at least `N`, and the `VolumeID` is non-empty exactly when the
returned one is. -/
theorem Provision_capacity_from_manager (I : pwxManager M Mt)
    (c : pwxDiskProvisioner M Mt) (d : pwxDisk M Mt) (m : M) (pv : PersistentVolume)
    (src : PwxVolumeSource) (N : Int) (volumeID : String) (sizeGB : Int)
    (hd : c.pwxDisk = some d) (hm : d.manager = some m)
    (hreq : c.options.Capacity = MustParseGi N)
    (hpv : pv.Spec.PwxDisk = some src)
    (hc : I.CreateVolume m c = (volumeID, sizeGB, none)) :
    ∃ (pv2 : PersistentVolume) (q : Quantity) (src2 : PwxVolumeSource),
      Provision I c pv = Run.returned (pv2, none) ∧
      storageCapacity pv2 = some q ∧ pv2.Spec.PwxDisk = some src2 ∧
      q = MustParseGi sizeGB ∧ q.bytes = sizeGB * 2 ^ 30 ∧
      pv2.Spec.Capacity = [(ResourceStorage, q)] ∧
      src2.VolumeID = volumeID ∧ src2.FSType = src.FSType ∧
      src2.ReadOnly = src.ReadOnly ∧ pv2.ObjectMeta = pv.ObjectMeta ∧
      (c.options.Capacity ≤ q ↔ N ≤ sizeGB) ∧
      (src2.VolumeID ≠ "" ↔ volumeID ≠ "") := by
  refine ⟨_, MustParseGi sizeGB, _,
    Provision_success I c d m pv src volumeID sizeGB hd hm hpv hc, ?_, rfl, rfl, rfl, rfl,
    rfl, rfl, rfl, rfl, ?_, Iff.rfl⟩
  · simp [storageCapacity, List.lookup]
  · rw [hreq]
    show N * 2 ^ 30 ≤ sizeGB * 2 ^ 30 ↔ N ≤ sizeGB
    constructor
    · intro h
      exact le_of_mul_le_mul_right h (by positivity)
    · intro h
      exact mul_le_mul_of_nonneg_right h (by positivity)

/-- A request of 5 GiB served by a manager that creates 8 GiB of identifier
`vol-8` reports exactly 8 GiB and `vol-8`, hence at least the requested
capacity and a non-empty identifier. -/
theorem Provision_capacity_from_manager_witness :
    fiveGiProvisioner.pwxDisk = some sampleDisk ∧ sampleDisk.manager = some () ∧
    fiveGiProvisioner.options.Capacity = MustParseGi 5 ∧
    fiveGiTemplate.Spec.PwxDisk
      = some { VolumeID := "00000000-0000-0000000-0000-000000", FSType := "ext4",
               ReadOnly := false } ∧
    goodManager.CreateVolume () fiveGiProvisioner = ("vol-8", 8, none) ∧
    ∃ (pv2 : PersistentVolume) (q : Quantity) (src2 : PwxVolumeSource),
      Provision goodManager fiveGiProvisioner fiveGiTemplate = Run.returned (pv2, none) ∧
      storageCapacity pv2 = some q ∧ pv2.Spec.PwxDisk = some src2 ∧
      q = MustParseGi 8 ∧ q.bytes = 8 * 2 ^ 30 ∧
      pv2.Spec.Capacity = [(ResourceStorage, q)] ∧
      src2.VolumeID = "vol-8" ∧ src2.FSType = "ext4" ∧
      src2.ReadOnly = false ∧ pv2.ObjectMeta = fiveGiTemplate.ObjectMeta ∧
      (fiveGiProvisioner.options.Capacity ≤ q ↔ (5 : Int) ≤ 8) ∧
      (src2.VolumeID ≠ "" ↔ "vol-8" ≠ "") :=
  ⟨rfl, rfl, rfl, rfl, rfl,
    Provision_capacity_from_manager goodManager fiveGiProvisioner sampleDisk ()
      fiveGiTemplate _ 5 "vol-8" 8 rfl rfl rfl rfl rfl⟩

/-- C6: when the manager's `CreateVolume` fails with error `e`, `Provision`
returns exactly `e` and the persistent volume is the one passed in, so its
`PwxDisk.VolumeID` and its capacity are unchanged. -/
theorem Provision_failure (I : pwxManager M Mt) (c : pwxDiskProvisioner M Mt)
    (d : pwxDisk M Mt) (m : M) (pv : PersistentVolume) (volumeID : String)
    (sizeGB : Int) (e : GoError)
    (hd : c.pwxDisk = some d) (hm : d.manager = some m)
    (hc : I.CreateVolume m c = (volumeID, sizeGB, some e)) :
    ∃ pv2 : PersistentVolume,
      Provision I c pv = Run.returned (pv2, some e) ∧ pv2 = pv ∧
      pv2.Spec.PwxDisk = pv.Spec.PwxDisk ∧ pv2.Spec.Capacity = pv.Spec.Capacity := by
  refine ⟨pv, ?_, rfl, rfl, rfl⟩
  simp only [Provision, hd, hm, hc, deref, bind, Run.bind, pure]

/-- A failing manager leaves the template as it was. -/
theorem Provision_failure_witness :
    failingManager.CreateVolume () fiveGiProvisioner = ("", 0, some ⟨"backend unavailable"⟩) ∧
    ∃ pv2 : PersistentVolume,
      Provision failingManager fiveGiProvisioner fiveGiTemplate
        = Run.returned (pv2, some ⟨"backend unavailable"⟩) ∧ pv2 = fiveGiTemplate ∧
      pv2.Spec.PwxDisk = fiveGiTemplate.Spec.PwxDisk ∧
      pv2.Spec.Capacity = fiveGiTemplate.Spec.Capacity :=
  ⟨rfl, Provision_failure failingManager fiveGiProvisioner sampleDisk () fiveGiTemplate
    "" 0 ⟨"backend unavailable"⟩ rfl rfl rfl⟩

/-! ## Mount path, set-up and tear-down -/

/-- C7: on a plugin with host `h`, `GetPath` of any disk is the host's
pod-volume directory for the disk's `podUID`, the escaped plugin name and the
disk's `volName`, whatever its `VolumeID`; hence the builder that
`newBuilderInternal` makes for a supported spec named `volName` and the
cleaner that `newCleanerInternal` makes for `volName` return the same path,
for every source (`VolumeID`, `fsType`, `readOnly`) the spec carries. -/
theorem GetPath_pure (L : Imports) (h : VolumeHost Mt) (spec : Spec) (podUID : UID)
    (volName : String) (mgrB mgrC : Option M) (mtB mtC : Option Mt)
    (hs : CanSupport spec = Run.returned true) (hn : L.SpecName spec = volName) :
    (∀ dk : pwxDisk M Mt, dk.plugin = some { host := some h } →
      GetPath L (some dk) = Run.returned
        (h.GetPodVolumeDir dk.podUID (L.EscapeQualifiedNameForDisk "kubernetes.io/pwx")
          dk.volName)) ∧
    ∃ (b : pwxBuilder M Mt) (c : pwxDiskCleaner M Mt),
      newBuilderInternal L { host := some h } spec podUID mgrB mtB
        = Run.returned (some b, none) ∧
      newCleanerInternal { host := some h } volName podUID mgrC mtC = (some c, none) ∧
      GetPath L b.pwxDisk = Run.returned
        (h.GetPodVolumeDir podUID (L.EscapeQualifiedNameForDisk "kubernetes.io/pwx") volName) ∧
      GetPath L c.pwxDisk = GetPath L b.pwxDisk := by
  constructor
  · intro dk hp
    simp [GetPath, deref, bind, Run.bind, pure, hp, pwxPluginName]
  · obtain ⟨b, d, hb, hbd, hu, hv, hp⟩ :=
      newBuilderInternal_disk L { host := some h } spec podUID mgrB mtB hs
    refine ⟨b, _, hb, rfl, ?_, ?_⟩
    · simp [GetPath, deref, bind, Run.bind, pure, hbd, hu, hv, hn, hp, pwxPluginName]
    · simp [GetPath, deref, bind, Run.bind, pure, hbd, hu, hv, hn, hp]

/-- The builder and the cleaner for volume `data` of pod `p1` share a path,
and the path of a disk on `samplePlugin` is the host's directory for it. -/
theorem GetPath_pure_witness :
    CanSupport inlineSpec = Run.returned true ∧ sampleImports.SpecName inlineSpec = "data" ∧
    (sampleDisk.plugin = some { host := some sampleHost } ∧
      GetPath sampleImports (some sampleDisk) = Run.returned
        (sampleHost.GetPodVolumeDir sampleDisk.podUID
          (sampleImports.EscapeQualifiedNameForDisk "kubernetes.io/pwx") sampleDisk.volName)) ∧
    ∃ (b : pwxBuilder Unit Unit) (c : pwxDiskCleaner Unit Unit),
      newBuilderInternal sampleImports { host := some sampleHost } inlineSpec "p1" (some ()) none
        = Run.returned (some b, none) ∧
      newCleanerInternal { host := some sampleHost } "data" "p1" none (some ()) = (some c, none) ∧
      GetPath sampleImports b.pwxDisk = Run.returned
        (sampleHost.GetPodVolumeDir "p1"
          (sampleImports.EscapeQualifiedNameForDisk "kubernetes.io/pwx") "data") ∧
      GetPath sampleImports c.pwxDisk = GetPath sampleImports b.pwxDisk :=
  ⟨rfl, rfl,
   ⟨rfl, (GetPath_pure sampleImports sampleHost inlineSpec "p1" "data" (some ()) none
      none (some ()) rfl rfl).1 sampleDisk rfl⟩,
   (GetPath_pure sampleImports sampleHost inlineSpec "p1" "data" (some ()) none
    none (some ()) rfl rfl).2⟩

/-- C8: `SetUpAt` called twice with the same directory and `fsGroup` succeeds
both times and leaves the builder as one call leaves it (all its fields:
`VolumeID`, `fsType`, `readOnly`, `podUID`, `volName`). -/
theorem SetUpAt_idempotent (b : pwxBuilder M Mt) (dir : String) (fsGroup : Option Int) :
    (SetUpAt b dir fsGroup).2 = none ∧
    (SetUpAt (SetUpAt b dir fsGroup).1 dir fsGroup).2 = none ∧
    (SetUpAt (SetUpAt b dir fsGroup).1 dir fsGroup).1 = (SetUpAt b dir fsGroup).1 :=
  ⟨rfl, rfl, rfl⟩

/-- C9: `TearDownAt` returns no error and leaves the cleaner as it was, for
every cleaner and every directory, a directory never set up included. -/
theorem TearDownAt_noop (c : pwxDiskCleaner M Mt) (dir : String) :
    TearDownAt c dir = (c, none) :=
  rfl

/-- C10 fails on the code: `NewCleaner` on the plugin value `pwxPlugin{}`,
which has no host, with an empty volume name and an empty pod UID, calls
`GetMounter` on the nil host and panics; and on a plugin that has a host it
returns a cleaner that is not nil. -/
theorem NewCleaner_bare_plugin (util : M) :
    NewCleaner util ({ host := none } : pwxPlugin Mt) "" "" = Run.panicked ∧
    ∀ h : VolumeHost Mt, ∃ c : pwxDiskCleaner M Mt,
      NewCleaner util { host := some h } "" "" = Run.returned (some c, none) :=
  ⟨rfl, fun _ => ⟨_, rfl⟩⟩

end Theorems

end Pwx
